import Mathlib

/-!
Verification of the rijksarbeidsvoorwaarden compensation calculator.

The repository computes total government employment compensation from a
(schaal, trede) salary-table lookup and a set of fixed percentage rules.
Two versions of the page exist in the sources: an older one in
src/routes/+page.svelte (a 0.919 factor on the yearly gross, no contracted
hours input) and a newer hours-aware one whose source is embedded in the
README.  Machine floating point is modelled by exact rational arithmetic.
All definitions below are transcribed from the reactive statements of the
respective page source; the salary-table module itself is not present in
the sources and is modelled from the spec where a claim needs it.
-/

namespace Rijks

/-- Hours options offered by the hours-aware page:
`const urenOptions = [27, 36, 38, 40]`. -/
def urenOptions : List ℚ := [27, 36, 38, 40]

/-- `scaleFactor = 12 * (selectedUren / 36)` from the hours-aware page. -/
def scaleFactor (selectedUren : ℚ) : ℚ := 12 * (selectedUren / 36)

/-- `yearlyPreTaxSalary = monthlyCompensation * scaleFactor` from the hours-aware page. -/
def yearlyPreTaxSalary (monthlyCompensation selectedUren : ℚ) : ℚ :=
  monthlyCompensation * scaleFactor selectedUren

/-- `individualPensionContribution = (monthlyCompensation * 0.081) * scaleFactor`. -/
def individualPensionContribution (monthlyCompensation selectedUren : ℚ) : ℚ :=
  (monthlyCompensation * 0.081) * scaleFactor selectedUren

/-- `ikbBudget = (monthlyCompensation * 0.165) * scaleFactor`. -/
def ikbBudget (monthlyCompensation selectedUren : ℚ) : ℚ :=
  (monthlyCompensation * 0.165) * scaleFactor selectedUren

/-- `pretaxSalaryInclBenefits = yearlyPreTaxSalary + ikbBudget - individualPensionContribution`. -/
def pretaxSalaryInclBenefits (monthlyCompensation selectedUren : ℚ) : ℚ :=
  yearlyPreTaxSalary monthlyCompensation selectedUren +
    ikbBudget monthlyCompensation selectedUren -
    individualPensionContribution monthlyCompensation selectedUren

/-- `pensoenEmployer = (monthlyCompensation * (0.27 - 0.081)) * scaleFactor`. -/
def pensoenEmployer (monthlyCompensation selectedUren : ℚ) : ℚ :=
  (monthlyCompensation * (0.27 - 0.081)) * scaleFactor selectedUren

/-- `pension = individualPensionContribution + pensoenEmployer`. -/
def pension (monthlyCompensation selectedUren : ℚ) : ℚ :=
  individualPensionContribution monthlyCompensation selectedUren +
    pensoenEmployer monthlyCompensation selectedUren

/-- `totalCompensation = pretaxSalaryInclBenefits + pension`. -/
def totalCompensation (monthlyCompensation selectedUren : ℚ) : ℚ :=
  pretaxSalaryInclBenefits monthlyCompensation selectedUren +
    pension monthlyCompensation selectedUren

/-- The five-day-equivalent figure `totalCompensation * (5 / 4)`, rendered by the
hours-aware page only inside the guard `{#if selectedUren === 36}`; `none` models
the figure not being produced. -/
def totalCompensation5Day (monthlyCompensation selectedUren : ℚ) : Option ℚ :=
  if selectedUren = 36 then
    some (totalCompensation monthlyCompensation selectedUren * (5 / 4))
  else none

/-- The high-income caveat of the hours-aware page, shown under the guard
`{#if yearlyPreTaxSalary + ikbBudget > 130000}`. -/
def highIncomeWarning (monthlyCompensation selectedUren : ℚ) : Bool :=
  decide (yearlyPreTaxSalary monthlyCompensation selectedUren +
    ikbBudget monthlyCompensation selectedUren > 130000)

namespace OldPage

/-- Older page: `yearlyPreTaxSalary = (monthlyCompensation * 0.919) * 12`. -/
def yearlyPreTaxSalary (monthlyCompensation : ℚ) : ℚ :=
  (monthlyCompensation * 0.919) * 12

/-- Older page: `preTaxTopup = (monthlyCompensation * 0.165) * 12`. -/
def preTaxTopup (monthlyCompensation : ℚ) : ℚ :=
  (monthlyCompensation * 0.165) * 12

/-- Older page: `pretaxSalaryInclBenefits = yearlyPreTaxSalary + preTaxTopup`. -/
def pretaxSalaryInclBenefits (monthlyCompensation : ℚ) : ℚ :=
  yearlyPreTaxSalary monthlyCompensation + preTaxTopup monthlyCompensation

/-- Older page: `pension = (monthlyCompensation * 0.27) * 12`. -/
def pension (monthlyCompensation : ℚ) : ℚ :=
  (monthlyCompensation * 0.27) * 12

/-- Older page: `totalCompensation = yearlyPreTaxSalary + preTaxTopup + pension`. -/
def totalCompensation (monthlyCompensation : ℚ) : ℚ :=
  yearlyPreTaxSalary monthlyCompensation + preTaxTopup monthlyCompensation +
    pension monthlyCompensation

/-- Older page: `totalCompensation5Day = totalCompensation * (5 / 4)`, unconditional. -/
def totalCompensation5Day (monthlyCompensation : ℚ) : ℚ :=
  totalCompensation monthlyCompensation * (5 / 4)

end OldPage

/-- Modelled from the spec: the single error kind of the system, `NotFound`,
raised when a requested (schaal, trede) combination is absent from the salary
table.  The salary-table module `$lib/salaryData` is imported by both page
versions but its source is not under src/. -/
inductive SalaryError where
  | notFound
deriving DecidableEq

/-- Modelled from the spec: the static salary table, an immutable mapping from
(schaal, trede) pairs to monthly base amounts. -/
abbrev SalaryTable := List (Nat × Nat × ℚ)

/-- Modelled from the spec: `getMonthlyCompensation(schaal, trede)` from the
missing `$lib/salaryData` module; it returns the monthly base amount for the
pair and fails with `NotFound` when the pair is absent from the table, without
returning a default or zero value. -/
def getMonthlyCompensation (tbl : SalaryTable) (schaal trede : Nat) : Except SalaryError ℚ :=
  match tbl.find? (fun e => e.1 == schaal && e.2.1 == trede) with
  | some e => Except.ok e.2.2
  | none => Except.error SalaryError.notFound

/-- C1: for every monthly base amount and contracted hours value, the
hours-aware page computes the yearly gross as
monthlyBase * scaleFactor = monthlyBase * (12 * (hours / 36)); in particular
the 0.919 factor of the older page is not applied (for positive inputs the
0.919-scaled value is strictly different). -/
theorem C1_yearlyGross (m u : ℚ) :
    yearlyPreTaxSalary m u = m * (12 * (u / 36)) ∧
    (0 < m → 0 < u → yearlyPreTaxSalary m u ≠ (m * 0.919) * (12 * (u / 36))) := by
  constructor
  · rfl
  · intro hm hu
    have hlt : (m * 0.919) * (12 * (u / 36)) < yearlyPreTaxSalary m u := by
      unfold yearlyPreTaxSalary scaleFactor
      nlinarith [mul_pos hm hu]
    exact ne_of_gt hlt

/-- Witness for C1 at monthlyBase = 4000, hours = 36. -/
theorem C1_yearlyGross_witness :
    (0 : ℚ) < 4000 ∧ (0 : ℚ) < 36 ∧
    yearlyPreTaxSalary 4000 36 ≠ ((4000 : ℚ) * 0.919) * (12 * (36 / 36)) :=
  ⟨by decide, by decide, (C1_yearlyGross 4000 36).2 (by decide) (by decide)⟩

/-- C2: the employee pension contribution is monthlyBase * 0.081 * scaleFactor,
the employer pension contribution is monthlyBase * (0.27 - 0.081) * scaleFactor,
and the total pension is their sum, i.e. 27 percent of monthlyBase * scaleFactor. -/
theorem C2_pension (m u : ℚ) :
    individualPensionContribution m u = m * 0.081 * scaleFactor u ∧
    pensoenEmployer m u = m * (0.27 - 0.081) * scaleFactor u ∧
    pension m u = individualPensionContribution m u + pensoenEmployer m u ∧
    pension m u = 0.27 * (m * scaleFactor u) := by
  refine ⟨rfl, rfl, rfl, ?_⟩
  unfold pension individualPensionContribution pensoenEmployer scaleFactor
  ring

/-- C3: the individual choice budget is monthlyBase * 0.165 * scaleFactor, the
gross-including-benefits figure is yearlyGross + ikb - employeePension, and the
total compensation is grossInclBenefits + totalPension. -/
theorem C3_totalCompensation (m u : ℚ) :
    ikbBudget m u = m * 0.165 * scaleFactor u ∧
    pretaxSalaryInclBenefits m u =
      yearlyPreTaxSalary m u + ikbBudget m u - individualPensionContribution m u ∧
    totalCompensation m u = pretaxSalaryInclBenefits m u + pension m u :=
  ⟨rfl, rfl, rfl⟩

/-- C4: at 36 contracted hours the scale factor is 12 and the five-day
equivalent equals totalCompensation * 1.25; for any other hours value the
five-day equivalent is not produced. -/
theorem C4_fiveDayEquivalent (m u : ℚ) :
    (u = 36 → scaleFactor u = 12 ∧
      totalCompensation5Day m u = some (totalCompensation m u * 1.25)) ∧
    (u ≠ 36 → totalCompensation5Day m u = none) := by
  constructor
  · rintro rfl
    constructor
    · unfold scaleFactor; norm_num
    · unfold totalCompensation5Day
      rw [if_pos rfl]
      norm_num
  · intro h
    unfold totalCompensation5Day
    rw [if_neg h]

/-- Witness for C4 at hours = 36 and hours = 40. -/
theorem C4_fiveDayEquivalent_witness :
    (scaleFactor 36 = 12 ∧
      totalCompensation5Day 4000 36 = some (totalCompensation 4000 36 * 1.25)) ∧
    totalCompensation5Day 4000 40 = none :=
  ⟨(C4_fiveDayEquivalent 4000 36).1 rfl, (C4_fiveDayEquivalent 4000 40).2 (by decide)⟩

/-- C5 counterexample: at monthlyBase = 4000 and hours = 36 the employer
pension contribution is not 7488 and the total compensation is not 63408 as
the claim states. -/
theorem C5_counterexample :
    ¬ (pensoenEmployer 4000 36 = 7488 ∧ totalCompensation 4000 36 = 63408) := by
  unfold totalCompensation pretaxSalaryInclBenefits pension yearlyPreTaxSalary
    ikbBudget individualPensionContribution pensoenEmployer scaleFactor
  norm_num

/-- C5 amended: at monthlyBase = 4000 (scale 11, step 5) and hours = 36 the
computation yields scaleFactor = 12, yearlyGross = 48000,
employeePension = 3888, individualChoiceBudget = 7920,
employerPension = 4000 * (0.27 - 0.081) * 12 = 9072 and
totalCompensation = 48000 + 7920 - 3888 + 3888 + 9072 = 64992. -/
theorem C5_concreteScenario :
    scaleFactor 36 = 12 ∧
    yearlyPreTaxSalary 4000 36 = 48000 ∧
    individualPensionContribution 4000 36 = 3888 ∧
    ikbBudget 4000 36 = 7920 ∧
    pensoenEmployer 4000 36 = 9072 ∧
    totalCompensation 4000 36 = 64992 := by
  unfold totalCompensation pretaxSalaryInclBenefits pension yearlyPreTaxSalary
    ikbBudget individualPensionContribution pensoenEmployer scaleFactor
  norm_num

/-- C6: scaling linearity: for every monthly base amount and every valid
contracted hours value h, the yearly gross at h equals the yearly gross at 36
hours multiplied by h / 36. -/
theorem C6_scalingLinearity (m u : ℚ) (hu : u ∈ urenOptions) :
    yearlyPreTaxSalary m u = yearlyPreTaxSalary m 36 * (u / 36) := by
  unfold yearlyPreTaxSalary scaleFactor
  ring

/-- Witness for C6 at monthlyBase = 4000, hours = 40. -/
theorem C6_scalingLinearity_witness :
    (40 : ℚ) ∈ urenOptions ∧
    yearlyPreTaxSalary 4000 40 = yearlyPreTaxSalary 4000 36 * (40 / 36) :=
  ⟨by decide, C6_scalingLinearity 4000 40 (by decide)⟩

/-- C7: for every nonnegative monthly base and positive contracted hours, the
total compensation is at least the yearly gross: the benefits added on top are
never negative in aggregate. -/
theorem C7_totalGeYearly (m u : ℚ) (hm : 0 ≤ m) (hu : 0 < u) :
    yearlyPreTaxSalary m u ≤ totalCompensation m u := by
  unfold totalCompensation pretaxSalaryInclBenefits pension yearlyPreTaxSalary
    ikbBudget individualPensionContribution pensoenEmployer scaleFactor
  nlinarith [mul_nonneg hm hu.le]

/-- Witness for C7 at monthlyBase = 4000, hours = 36. -/
theorem C7_totalGeYearly_witness :
    (0 : ℚ) ≤ 4000 ∧ (0 : ℚ) < 36 ∧
    yearlyPreTaxSalary 4000 36 ≤ totalCompensation 4000 36 :=
  ⟨by decide, by decide, C7_totalGeYearly 4000 36 (by decide) (by decide)⟩

/-- C8: the high-income caveat is signalled exactly when
yearlyGross + ikbBudget > 130000: it triggers strictly above the threshold and
does not trigger at or below it.  The caveat is a separate boolean predicate;
none of the compensation definitions depend on it, so the formulas are
unchanged in either case. -/
theorem C8_highIncomeWarning (m u : ℚ) :
    (yearlyPreTaxSalary m u + ikbBudget m u > 130000 → highIncomeWarning m u = true) ∧
    (yearlyPreTaxSalary m u + ikbBudget m u ≤ 130000 → highIncomeWarning m u = false) := by
  constructor
  · intro h
    unfold highIncomeWarning
    exact decide_eq_true h
  · intro h
    unfold highIncomeWarning
    exact decide_eq_false (not_lt.mpr h)

/-- Witness for C8: the warning is on at monthlyBase = 10000, hours = 36
(income 139800) and off at monthlyBase = 4000, hours = 36 (income 55920). -/
theorem C8_highIncomeWarning_witness :
    (yearlyPreTaxSalary 10000 36 + ikbBudget 10000 36 > 130000 ∧
      highIncomeWarning 10000 36 = true) ∧
    (yearlyPreTaxSalary 4000 36 + ikbBudget 4000 36 ≤ 130000 ∧
      highIncomeWarning 4000 36 = false) :=
  ⟨⟨by norm_num [yearlyPreTaxSalary, ikbBudget, scaleFactor],
    (C8_highIncomeWarning 10000 36).1
      (by norm_num [yearlyPreTaxSalary, ikbBudget, scaleFactor])⟩,
   ⟨by norm_num [yearlyPreTaxSalary, ikbBudget, scaleFactor],
    (C8_highIncomeWarning 4000 36).2
      (by norm_num [yearlyPreTaxSalary, ikbBudget, scaleFactor])⟩⟩

/-- C9: for every (schaal, trede) pair absent from the salary table the lookup
fails with NotFound rather than returning a default or zero value, and
NotFound is the only error kind in the system. -/
theorem C9_lookupNotFound :
    (∀ (tbl : SalaryTable) (schaal trede : Nat),
      (∀ q : ℚ, (schaal, trede, q) ∉ tbl) →
      getMonthlyCompensation tbl schaal trede = Except.error SalaryError.notFound) ∧
    (∀ err : SalaryError, err = SalaryError.notFound) := by
  constructor
  · intro tbl schaal trede habs
    have hnone : tbl.find? (fun e => e.1 == schaal && e.2.1 == trede) = none := by
      rw [List.find?_eq_none]
      rintro ⟨a, b, q⟩ hmem hp
      simp only [Bool.and_eq_true, beq_iff_eq] at hp
      obtain ⟨ha, hb⟩ := hp
      subst ha
      subst hb
      exact habs q hmem
    unfold getMonthlyCompensation
    rw [hnone]
  · intro err
    cases err
    rfl

/-- Witness for C9: looking up (schaal 1, trede 1) in a table holding only
(schaal 11, trede 5) yields the NotFound error. -/
theorem C9_lookupNotFound_witness :
    (∀ q : ℚ, ((1 : Nat), (1 : Nat), q) ∉ ([(11, 5, 4000)] : SalaryTable)) ∧
    getMonthlyCompensation [(11, 5, 4000)] 1 1 = Except.error SalaryError.notFound :=
  ⟨by intro q; simp,
   C9_lookupNotFound.1 [(11, 5, 4000)] 1 1 (by intro q; simp)⟩

/-- C10: for every monthly base amount the total compensation of the older page
(0.919-based yearly gross plus IKB plus full pension) equals the total
compensation of the newer hours-aware page at 36 contracted hours; both reduce
to monthlyBase * 12 * 1.354, even though the intermediate yearly-gross
components differ for positive monthly base. -/
theorem C10_oldNewEquivalence (m : ℚ) :
    OldPage.totalCompensation m = totalCompensation m 36 ∧
    OldPage.totalCompensation m = m * 12 * 1.354 ∧
    (0 < m → OldPage.yearlyPreTaxSalary m ≠ yearlyPreTaxSalary m 36) := by
  refine ⟨?_, ?_, ?_⟩
  · unfold OldPage.totalCompensation OldPage.yearlyPreTaxSalary OldPage.preTaxTopup
      OldPage.pension totalCompensation pretaxSalaryInclBenefits pension
      yearlyPreTaxSalary ikbBudget individualPensionContribution pensoenEmployer
      scaleFactor
    ring
  · unfold OldPage.totalCompensation OldPage.yearlyPreTaxSalary OldPage.preTaxTopup
      OldPage.pension
    ring
  · intro hm
    have hlt : OldPage.yearlyPreTaxSalary m < yearlyPreTaxSalary m 36 := by
      unfold OldPage.yearlyPreTaxSalary yearlyPreTaxSalary scaleFactor
      nlinarith [hm]
    exact ne_of_lt hlt

/-- Witness for C10 at monthlyBase = 4000: totals agree at 64992 while the
yearly-gross components are 44112 versus 48000. -/
theorem C10_oldNewEquivalence_witness :
    OldPage.totalCompensation 4000 = totalCompensation 4000 36 ∧
    OldPage.totalCompensation 4000 = (4000 : ℚ) * 12 * 1.354 ∧
    ((0 : ℚ) < 4000 ∧ OldPage.yearlyPreTaxSalary 4000 ≠ yearlyPreTaxSalary 4000 36) :=
  ⟨(C10_oldNewEquivalence 4000).1, (C10_oldNewEquivalence 4000).2.1,
   ⟨by decide, (C10_oldNewEquivalence 4000).2.2 (by decide)⟩⟩

end Rijks
